import Mathlib

/-!
Verification of the natural-language specification of `remote_ssh.py`
(Kowts/remote-ssh-py-script) against a shallow embedding of the code.

The repository wraps the asyncssh transport.  The transport itself is an
external collaborator (spec section 6), so each operation is embedded as a
pure Lean function of an explicit "transport outcome" value describing what
the underlying channel did for this one invocation, together with the same
parameters the Python function takes.  Python exceptions become an explicit
`Except` result; the distinct Python exception classes raised by the code
(`ValueError`, `asyncio.TimeoutError`, `FileNotFoundError`) become distinct
constructors of `PyExc`, each carrying the message the code builds and the
original cause it is raised from (the Python `raise X(...) from e`).
Wall-clock times are rationals; `round` on a Python float is embedded as
`pyRound` on the rationals, with the Python bankers-rounding tie rule.
-/

namespace RemoteSSH

/-- Python exceptions observable from `remote_ssh.py`.
`valueError msg cause` embeds `raise ValueError(msg) from cause`;
`asyncioTimeoutError t` embeds the `asyncio.TimeoutError` re-raised at
line 176 and records the configured timeout value `t` that the message
interpolates; `fileNotFoundError msg cause` embeds
`raise FileNotFoundError(msg) from cause` (line 118); `asyncsshError msg`
stands for a raw transport exception (`asyncssh.Error`) escaping uncaught,
which the code never allows. -/
inductive PyExc where
  | valueError (msg : String) (cause : String)
  | asyncioTimeoutError (timeoutVal : Nat)
  | fileNotFoundError (msg : String) (cause : String)
  | asyncsshError (msg : String)
  deriving DecidableEq

/-- The Unicode replacement character U+FFFD substituted by
`bytes.decode("utf-8", errors="replace")` for invalid byte sequences. -/
def replChar : Char := Char.ofNat 0xFFFD

/-- Lower bound of the valid first continuation byte of a three-byte
UTF-8 sequence starting with byte `b`. -/
def utf8lo3 (b : Nat) : Nat := if b = 0xE0 then 0xA0 else 0x80

/-- Upper bound of the valid first continuation byte of a three-byte
UTF-8 sequence starting with byte `b` (0xED excludes surrogates). -/
def utf8hi3 (b : Nat) : Nat := if b = 0xED then 0x9F else 0xBF

/-- Lower bound of the valid first continuation byte of a four-byte
UTF-8 sequence starting with byte `b`. -/
def utf8lo4 (b : Nat) : Nat := if b = 0xF0 then 0x90 else 0x80

/-- Upper bound of the valid first continuation byte of a four-byte
UTF-8 sequence starting with byte `b` (0xF4 caps code points at U+10FFFF). -/
def utf8hi4 (b : Nat) : Nat := if b = 0xF4 then 0x8F else 0xBF

/-- Whether byte `c` lies in the continuation range `[lo, hi]`. -/
def utf8cont (lo hi c : Nat) : Bool := lo ≤ c && c ≤ hi

/-- CPython `bytes.decode("utf-8", errors="replace")`: strict UTF-8 with
one U+FFFD replacement per maximal invalid subpart (an invalid start byte,
or a maximal valid prefix of a multi-byte sequence that is cut short by an
invalid continuation byte or by the end of the input). -/
def pyDecodeUtf8 : List Nat → List Char
  | [] => []
  | b :: rest =>
    if b ≤ 0x7F then Char.ofNat b :: pyDecodeUtf8 rest
    else if b < 0xC2 then replChar :: pyDecodeUtf8 rest
    else if b ≤ 0xDF then
      match rest with
      | [] => [replChar]
      | c1 :: r1 =>
        if utf8cont 0x80 0xBF c1 then
          Char.ofNat ((b - 0xC0) * 0x40 + (c1 - 0x80)) :: pyDecodeUtf8 r1
        else replChar :: pyDecodeUtf8 (c1 :: r1)
    else if b ≤ 0xEF then
      match rest with
      | [] => [replChar]
      | c1 :: r1 =>
        if utf8cont (utf8lo3 b) (utf8hi3 b) c1 then
          match r1 with
          | [] => [replChar]
          | c2 :: r2 =>
            if utf8cont 0x80 0xBF c2 then
              Char.ofNat ((b - 0xE0) * 0x1000 + (c1 - 0x80) * 0x40 + (c2 - 0x80)) ::
                pyDecodeUtf8 r2
            else replChar :: pyDecodeUtf8 (c2 :: r2)
        else replChar :: pyDecodeUtf8 (c1 :: r1)
    else if b ≤ 0xF4 then
      match rest with
      | [] => [replChar]
      | c1 :: r1 =>
        if utf8cont (utf8lo4 b) (utf8hi4 b) c1 then
          match r1 with
          | [] => [replChar]
          | c2 :: r2 =>
            if utf8cont 0x80 0xBF c2 then
              match r2 with
              | [] => [replChar]
              | c3 :: r3 =>
                if utf8cont 0x80 0xBF c3 then
                  Char.ofNat ((b - 0xF0) * 0x40000 + (c1 - 0x80) * 0x1000 +
                      (c2 - 0x80) * 0x40 + (c3 - 0x80)) :: pyDecodeUtf8 r3
                else replChar :: pyDecodeUtf8 (c3 :: r3)
            else replChar :: pyDecodeUtf8 (c2 :: r2)
        else replChar :: pyDecodeUtf8 (c1 :: r1)
    else replChar :: pyDecodeUtf8 rest
termination_by l => l.length
decreasing_by all_goals simp_all [List.length_cons] <;> omega

/-- The value read from `process.stdout` (or `process.stderr`): either raw
bytes or an already decoded text string, matching the dynamic
`isinstance(stdout, bytes)` test at line 164. -/
inductive StdoutVal where
  | bytes (bs : List Nat)
  | text (s : String)
  deriving DecidableEq

/-- Line 164: `stdout.decode("utf-8", errors="replace") if
isinstance(stdout, bytes) else stdout`. -/
def decodeStdout : StdoutVal → String
  | .bytes bs => String.mk (pyDecodeUtf8 bs)
  | .text s => s

/-- Python 3 built-in `round` on a real value: round to the nearest
integer, ties going to the even integer (bankers rounding). -/
def pyRound (x : ℚ) : ℤ :=
  if Int.fract x = 1 / 2 then (if ⌊x⌋ % 2 = 0 then ⌊x⌋ else ⌊x⌋ + 1)
  else round x

/-- What the remote process channel does after dispatch: either the process
terminates after `runtime` wall-clock seconds, or the transport fails with
an `asyncssh.Error` carrying `msg` at wall-clock time `atTime`. -/
inductive WaitOutcome where
  | completes (runtime : ℚ)
  | fails (msg : String) (atTime : ℚ)
  deriving DecidableEq

/-- Transport behaviour for one `execute_command` invocation:
`dispatch = some msg` means `ssh_client.create_process(command)` raised an
`asyncssh.Error` with message `msg`; otherwise the process channel behaves
as `wait` says, and once the process is closed the buffered streams read as
`stdout` and `stderr` and `process.exit_status` is `exitStatus`. -/
structure ProcEnv where
  dispatch : Option String
  wait : WaitOutcome
  stdout : StdoutVal
  stderr : StdoutVal
  exitStatus : Int
  deriving DecidableEq

/-- Lines 124-176, `execute_command`.  The wait branch records the start
time, awaits `process.wait_closed()` (bounded by `asyncio.wait_for` when
`timeout` is set), reads both streams, and returns
`(decoded stdout, exit status, round(end - start))`; in the ideal-clock
model `end - start` is the runtime of the process.  With a timeout `t`,
`asyncio.wait_for` delivers the inner outcome when it occurs by time `t`
and raises `asyncio.TimeoutError` otherwise; both `asyncssh.Error` and the
timeout are re-raised by the two `except` clauses at lines 171-176.  The
no-wait branch polls `process.exit_status_ready()` every `check_interval`
seconds and returns `("", process.exit_status, 0.0)`. -/
def execute_command (env : ProcEnv) (command : String) (wait_for_response : Bool)
    (check_interval : Nat) (timeout : Option Nat) : Except PyExc (String × Int × ℚ) :=
  match env.dispatch with
  | some e => .error (.valueError ("SSH error during command execution: " ++ e) e)
  | none =>
    if wait_for_response then
      match timeout, env.wait with
      | none, .completes r =>
          .ok (decodeStdout env.stdout, env.exitStatus, (pyRound r : ℚ))
      | none, .fails m _ =>
          .error (.valueError ("SSH error during command execution: " ++ m) m)
      | some t, .completes r =>
          if (t : ℚ) < r then .error (.asyncioTimeoutError t)
          else .ok (decodeStdout env.stdout, env.exitStatus, (pyRound r : ℚ))
      | some t, .fails m te =>
          if (t : ℚ) < te then .error (.asyncioTimeoutError t)
          else .error (.valueError ("SSH error during command execution: " ++ m) m)
    else
      .ok ("", env.exitStatus, 0)

/-- Wall-clock time at which the no-wait polling loop of lines 167-168
returns, for a process that reaches its terminal state at time `r`: the
loop checks `process.exit_status_ready()` at times `0, ci, 2 * ci, ...`
and returns at the first check time that is at least `r`. -/
def noWaitReturnTime (r : ℚ) (check_interval : Nat) : ℚ :=
  if r ≤ 0 then 0 else (check_interval : ℚ) * ⌈r / (check_interval : ℚ)⌉

/-- The opaque `asyncssh.SSHClientConnection` handle.  The only aspect of
its state the code drives is closure (`close` and `wait_closed`). -/
structure SSHClientConn where
  closed : Bool
  deriving DecidableEq

/-- Lines 13-45, `connect_ssh`.  The collaborator call `asyncssh.connect`
either yields a connection or raises an `asyncssh.Error` with message `e`;
its outcome is the argument `out`.  The `except asyncssh.Error` clause at
lines 43-45 re-raises `ValueError(f"SSH connection error: ...") from e`. -/
def connect_ssh (hostname : String) (port : Nat) (username password : String)
    (keepalive_interval : Nat) (out : Except String SSHClientConn) :
    Except PyExc SSHClientConn :=
  match out with
  | .ok c => .ok c
  | .error e => .error (.valueError ("SSH connection error: " ++ e) e)

/-- Lines 48-65, `disconnect_ssh`.  Returns the final state of the
(optional) connection together with a flag recording whether
`ssh_client.wait_closed()` was awaited to completion before returning.
`if ssh_client is not None` guards the whole body, so a null session is a
no-op; neither `close()` nor `wait_closed()` raises, so the result is
always `Except.ok`. -/
def disconnect_ssh (ssh_client : Option SSHClientConn) :
    Except PyExc (Option SSHClientConn × Bool) :=
  match ssh_client with
  | none => .ok (none, false)
  | some _ => .ok (some ⟨true⟩, true)

/-- Outcome of the collaborator call `sftp_client.put(local, remote)`:
success, `FileNotFoundError` because the local file is missing, or an
`asyncssh.SFTPError` with message `msg`. -/
inductive PutOutcome where
  | ok
  | localMissing
  | sftpError (msg : String)
  deriving DecidableEq

/-- SFTP transport behaviour for one upload: what `put` does for each
(local path, remote path) pair it could be invoked on. -/
structure UploadEnv where
  put : String → String → PutOutcome

/-- Line 85: `remote_path = f"{remote_folder}/{new_filename}"` — plain
string interpolation, no path normalization. -/
def uploadRemotePath (remote_folder new_filename : String) : String :=
  remote_folder ++ "/" ++ new_filename

/-- Lines 69-93, `upload_file`.  Invokes `put` on the local path and the
interpolated remote path; returns `True` on success and `False` from the
two `except` clauses (missing local file, `asyncssh.SFTPError`). -/
def upload_file (env : UploadEnv) (local_file_path remote_folder new_filename : String) :
    Bool :=
  match env.put local_file_path (uploadRemotePath remote_folder new_filename) with
  | .ok => true
  | .localMissing => false
  | .sftpError _ => false

/-- Outcome of the collaborator call `sftp_client.get(remote, local)`
followed by the `os.path.exists(local_path)` probe: `ok localExists` means
the transfer call returned and the destination file was then present
(`localExists = true`) or absent (`localExists = false`);
`remoteMissing cause` means `get` raised `FileNotFoundError`;
`sftpError msg` means `get` raised an `asyncssh.SFTPError`. -/
inductive GetOutcome where
  | ok (localExists : Bool)
  | remoteMissing (cause : String)
  | sftpError (msg : String)
  deriving DecidableEq

/-- Lines 97-120, `download_file`.  On success returns
`os.path.exists(local_path)`; re-raises `FileNotFoundError(f"Remote file
not found: ...") from e` and `ValueError(f"SFTP error during file
download: ...") from sftp_error` in the two `except` clauses. -/
def download_file (out : GetOutcome) (remote_file_path local_folder new_filename : String) :
    Except PyExc Bool :=
  match out with
  | .ok localExists => .ok localExists
  | .remoteMissing cause =>
      .error (.fileNotFoundError ("Remote file not found: " ++ remote_file_path) cause)
  | .sftpError m =>
      .error (.valueError ("SFTP error during file download: " ++ m) m)

/-- Outcome of the collaborator call `sftp_client.exists(path)`: a boolean
answer, or an `asyncssh.SFTPError` with message `msg`. -/
inductive ExistsOutcome where
  | ok (b : Bool)
  | sftpError (msg : String)
  deriving DecidableEq

/-- Lines 180-193, `check_remote_file`.  Returns
`bool(await sftp_client.exists(remote_file_path))`; the
`except asyncssh.SFTPError` clause returns `False`, so the function is
total and never raises. -/
def check_remote_file (out : ExistsOutcome) (remote_file_path : String) : Bool :=
  match out with
  | .ok b => b
  | .sftpError _ => false

/-- Python `filename.startswith(pre)`: `pre` is a character-wise prefix of
`filename`. -/
def pyStartswith (filename pre : String) : Bool :=
  pre.data.isPrefixOf filename.data

/-- Outcome of the collaborator call `sftp_client.listdir(dir)`: the
directory entries in listing order, or an `asyncssh.SFTPError`. -/
inductive ListdirOutcome where
  | ok (file_list : List String)
  | sftpError (msg : String)
  deriving DecidableEq

/-- Lines 197-217, `find_file`.  Iterates over the listing in order and
returns the first entry whose name starts with the given prefix string
(the for-loop with an early return is `List.find?`); returns `None` after
a full non-matching iteration and `None` from the
`except asyncssh.SFTPError` clause. -/
def find_file (out : ListdirOutcome) (remote_directory pre : String) : Option String :=
  match out with
  | .ok file_list => file_list.find? (fun filename => pyStartswith filename pre)
  | .sftpError _ => none

/-! ## Helper lemmas -/

/-- Rounding to the nearest integer never exceeds the floor plus one,
whichever tie rule is used. -/
theorem pyRound_le_floor_add_one (x : ℚ) : pyRound x ≤ ⌊x⌋ + 1 := by
  unfold pyRound
  split
  · split <;> omega
  · rw [round_eq]
    refine Int.floor_le_iff.mpr ?_
    have h := Int.lt_floor_add_one x
    push_cast
    linarith

/-- A value strictly below an integer bound rounds to at most that bound. -/
theorem pyRound_le_of_lt (x : ℚ) (t : ℤ) (h : x < (t : ℚ)) : pyRound x ≤ t := by
  have h1 := pyRound_le_floor_add_one x
  have h2 : ⌊x⌋ < t := Int.floor_lt.mpr h
  omega

/-- A successful `List.find?` splits the list into a non-matching part,
the returned element, and a tail: the result is the first match in list
order. -/
theorem find?_decomp {α : Type} (p : α → Bool) :
    ∀ (l : List α) (a : α), l.find? p = some a →
      p a = true ∧ ∃ l1 l2, l = l1 ++ a :: l2 ∧ ∀ g ∈ l1, p g = false := by
  intro l
  induction l with
  | nil => intro a h; simp at h
  | cons x xs ih =>
    intro a h
    rcases hx : p x with _ | _
    · rw [List.find?_cons_of_neg _ (by simp [hx])] at h
      obtain ⟨hpa, l1, l2, hdec, hl1⟩ := ih a h
      refine ⟨hpa, x :: l1, l2, by simp [hdec], ?_⟩
      intro g hg
      rcases List.mem_cons.mp hg with rfl | hg
      · exact hx
      · exact hl1 g hg
    · rw [List.find?_cons_of_pos _ hx] at h
      injection h with h2
      subst h2
      exact ⟨hx, [], xs, rfl, by simp⟩

/-! ## Claims -/

/-- C1: for every command executed with wait_for_response true and no
timeout, `execute_command` returns a triple of (1) the complete captured
stdout, UTF-8-decoded with replacement characters substituted for invalid
byte sequences when the stream is raw bytes and passed through unchanged
when it is already text, (2) the true exit status of the remote process,
and (3) the elapsed wall-clock time rounded to the nearest whole second;
stderr is read but does not influence the returned result. -/
theorem claim_C1 (bs : List Nat) (s : String) (sout serr serr2 : StdoutVal)
    (es : Int) (r : ℚ) (cmd : String) (ci : Nat) :
    execute_command ⟨none, .completes r, sout, serr, es⟩ cmd true ci none
      = .ok (decodeStdout sout, es, (pyRound r : ℚ))
    ∧ execute_command ⟨none, .completes r, .bytes bs, serr, es⟩ cmd true ci none
      = .ok (String.mk (pyDecodeUtf8 bs), es, (pyRound r : ℚ))
    ∧ execute_command ⟨none, .completes r, .text s, serr, es⟩ cmd true ci none
      = .ok (s, es, (pyRound r : ℚ))
    ∧ execute_command ⟨none, .completes r, sout, serr2, es⟩ cmd true ci none
      = execute_command ⟨none, .completes r, sout, serr, es⟩ cmd true ci none :=
  ⟨rfl, rfl, rfl, rfl⟩

/-- C2: with wait_for_response true and a configured timeout strictly
smaller than the actual runtime, `execute_command` fails with the timeout
error kind carrying the configured timeout value, which is distinct from
the execution-error kind; with a timeout strictly larger than the runtime
the call returns normally and the reported elapsed time is at most the
timeout. -/
theorem claim_C2 (sout serr : StdoutVal) (es : Int) (r : ℚ) (cmd : String) (ci t : Nat) :
    ((t : ℚ) < r →
      execute_command ⟨none, .completes r, sout, serr, es⟩ cmd true ci (some t)
        = .error (.asyncioTimeoutError t))
    ∧ (r < (t : ℚ) →
      execute_command ⟨none, .completes r, sout, serr, es⟩ cmd true ci (some t)
        = .ok (decodeStdout sout, es, (pyRound r : ℚ))
      ∧ (pyRound r : ℚ) ≤ (t : ℚ))
    ∧ (∀ (tv : Nat) (m c : String), PyExc.asyncioTimeoutError tv ≠ PyExc.valueError m c) := by
  have hshape : execute_command ⟨none, .completes r, sout, serr, es⟩ cmd true ci (some t)
      = if (t : ℚ) < r then .error (.asyncioTimeoutError t)
        else .ok (decodeStdout sout, es, (pyRound r : ℚ)) := rfl
  refine ⟨?_, ?_, ?_⟩
  · intro h
    rw [hshape, if_pos h]
  · intro h
    refine ⟨by rw [hshape, if_neg (not_lt.2 h.le)], ?_⟩
    exact_mod_cast pyRound_le_of_lt r t (by exact_mod_cast h)
  · intro tv m c h
    exact PyExc.noConfusion h

/-- C2 witness at concrete inputs: timeout 3 with runtime 5 fails with the
timeout kind carrying 3; timeout 7 with runtime 2 returns normally with
elapsed at most 7. -/
theorem claim_C2_witness :
    execute_command ⟨none, .completes 5, .text "", .text "", 0⟩ "cmd" true 10 (some 3)
      = .error (.asyncioTimeoutError 3)
    ∧ (execute_command ⟨none, .completes 2, .text "out", .text "", 0⟩ "cmd" true 10 (some 7)
      = .ok (decodeStdout (.text "out"), 0, (pyRound 2 : ℚ))
      ∧ (pyRound (2 : ℚ) : ℚ) ≤ ((7 : Nat) : ℚ)) :=
  ⟨(claim_C2 (.text "") (.text "") 0 5 "cmd" 10 3).1 (by decide),
   (claim_C2 (.text "out") (.text "") 0 2 "cmd" 10 7).2.1 (by decide)⟩

/-- C3: with wait_for_response false, `execute_command` returns the tuple
of empty output, the exit status, and elapsed time 0, for every command
and wait outcome; it never fails with the timeout kind no matter what the
transport does; and the polling loop only returns at a check time that is
at least the time the process reaches its terminal state. -/
theorem claim_C3 :
    (∀ (w : WaitOutcome) (sout serr : StdoutVal) (es : Int) (cmd : String)
      (ci : Nat) (t : Option Nat),
      execute_command ⟨none, w, sout, serr, es⟩ cmd false ci t = .ok ("", es, 0))
    ∧ (∀ (env : ProcEnv) (cmd : String) (ci : Nat) (t : Option Nat) (tv : Nat),
      execute_command env cmd false ci t ≠ .error (.asyncioTimeoutError tv))
    ∧ (∀ (r : ℚ) (ci : Nat), 0 < ci → r ≤ noWaitReturnTime r ci) := by
  refine ⟨fun _ _ _ _ _ _ _ => rfl, ?_, ?_⟩
  · intro env cmd ci t tv
    rcases env with ⟨d, w, sout, serr, es⟩
    cases d
    · intro h
      exact Except.noConfusion h
    · intro h
      rw [show execute_command ⟨some _, w, sout, serr, es⟩ cmd false ci t
          = .error (.valueError _ _) from rfl] at h
      exact PyExc.noConfusion (Except.error.inj h)
  · intro r ci hci
    unfold noWaitReturnTime
    split
    · assumption
    · rename_i hr
      push_neg at hr
      have hci0 : (0 : ℚ) < (ci : ℚ) := by exact_mod_cast hci
      have h1 : r / (ci : ℚ) ≤ (⌈r / (ci : ℚ)⌉ : ℚ) := Int.le_ceil _
      calc r = (ci : ℚ) * (r / (ci : ℚ)) := by field_simp
        _ ≤ (ci : ℚ) * (⌈r / (ci : ℚ)⌉ : ℚ) := by
            exact mul_le_mul_of_nonneg_left h1 hci0.le

/-- C3 witness at concrete inputs: a no-wait call returns the empty tuple,
and with check interval 10 a process terminal at time 25 is observed at a
return time no earlier than 25. -/
theorem claim_C3_witness :
    execute_command ⟨none, .completes 25, .text "x", .text "", 7⟩ "cmd" false 10 none
      = .ok ("", 7, 0)
    ∧ (25 : ℚ) ≤ noWaitReturnTime 25 10 :=
  ⟨claim_C3.1 (.completes 25) (.text "x") (.text "") 7 "cmd" 10 none,
   claim_C3.2.2 25 10 (by decide)⟩

/-- C4: every transport-level error raised by the process channel while
dispatching or awaiting a command is re-raised as the execution-error kind
wrapping the original cause; no branch lets the raw transport exception
escape, and the execution-error kind is distinct from the timeout kind. -/
theorem claim_C4 :
    (∀ (e : String) (w : WaitOutcome) (sout serr : StdoutVal) (es : Int)
      (cmd : String) (wfr : Bool) (ci : Nat) (t : Option Nat),
      execute_command ⟨some e, w, sout, serr, es⟩ cmd wfr ci t
        = .error (.valueError ("SSH error during command execution: " ++ e) e))
    ∧ (∀ (m : String) (te : ℚ) (sout serr : StdoutVal) (es : Int) (cmd : String) (ci : Nat),
      execute_command ⟨none, .fails m te, sout, serr, es⟩ cmd true ci none
        = .error (.valueError ("SSH error during command execution: " ++ m) m))
    ∧ (∀ (m : String) (te : ℚ) (sout serr : StdoutVal) (es : Int) (cmd : String)
      (ci : Nat) (t : Nat), te ≤ (t : ℚ) →
      execute_command ⟨none, .fails m te, sout, serr, es⟩ cmd true ci (some t)
        = .error (.valueError ("SSH error during command execution: " ++ m) m))
    ∧ (∀ (env : ProcEnv) (cmd : String) (wfr : Bool) (ci : Nat) (t : Option Nat)
      (msg : String),
      execute_command env cmd wfr ci t ≠ .error (.asyncsshError msg))
    ∧ (∀ (msg cause : String) (tv : Nat),
      PyExc.valueError msg cause ≠ PyExc.asyncioTimeoutError tv) := by
  refine ⟨fun _ _ _ _ _ _ _ _ _ => rfl, fun _ _ _ _ _ _ _ => rfl, ?_, ?_, ?_⟩
  · intro m te sout serr es cmd ci t h
    rw [show execute_command ⟨none, .fails m te, sout, serr, es⟩ cmd true ci (some t)
        = if (t : ℚ) < te then .error (.asyncioTimeoutError t)
          else .error (.valueError ("SSH error during command execution: " ++ m) m)
        from rfl,
      if_neg (not_lt.2 h)]
  · intro env cmd wfr ci t msg
    rcases env with ⟨d, w, sout, serr, es⟩
    cases d with
    | some e => simp [execute_command]
    | none =>
      cases wfr with
      | false => simp [execute_command]
      | true =>
        cases t with
        | none => cases w <;> simp [execute_command]
        | some tv =>
          cases w with
          | completes r =>
            by_cases h : (tv : ℚ) < r <;> simp [execute_command, h]
          | fails m2 te =>
            by_cases h : (tv : ℚ) < te <;> simp [execute_command, h]
  · intro msg cause tv h
    exact PyExc.noConfusion h

/-- C4 witness at concrete inputs: a transport failure at time 1 under
timeout 5 surfaces as the execution-error kind wrapping the cause. -/
theorem claim_C4_witness :
    execute_command ⟨none, .fails "boom" 1, .text "", .text "", 0⟩ "cmd" true 10 (some 5)
      = .error (.valueError ("SSH error during command execution: " ++ "boom") "boom") :=
  claim_C4.2.2.1 "boom" 1 (.text "") (.text "") 0 "cmd" 10 5 (by decide)

/-- C5: every authentication or transport failure of the underlying
connect call makes `connect_ssh` fail with the connection-error kind
wrapping the underlying cause, and the caller receives no session. -/
theorem claim_C5 (hostname : String) (port : Nat) (username password : String)
    (keepalive_interval : Nat) (e : String) :
    connect_ssh hostname port username password keepalive_interval (.error e)
      = .error (.valueError ("SSH connection error: " ++ e) e)
    ∧ (∀ c : SSHClientConn,
      connect_ssh hostname port username password keepalive_interval (.error e) ≠ .ok c) :=
  ⟨rfl, fun _ h => Except.noConfusion h⟩

/-- C5 witness at a concrete failing connect. -/
theorem claim_C5_witness :
    connect_ssh "host" 22 "user" "pw" 30 (.error "auth failed")
      = .error (.valueError ("SSH connection error: " ++ "auth failed") "auth failed")
    ∧ connect_ssh "host" 22 "user" "pw" 30 (.error "auth failed") ≠ .ok ⟨false⟩ :=
  ⟨(claim_C5 "host" 22 "user" "pw" 30 "auth failed").1,
   (claim_C5 "host" 22 "user" "pw" 30 "auth failed").2 ⟨false⟩⟩

/-- C6: `disconnect_ssh` on a null session is a no-op that never raises,
on an already closed session it never raises and leaves the session
closed, and on any live session it awaits shutdown completion (flag true)
before returning. -/
theorem claim_C6 :
    disconnect_ssh none = .ok (none, false)
    ∧ (∀ c : SSHClientConn, disconnect_ssh (some c) = .ok (some ⟨true⟩, true))
    ∧ disconnect_ssh (some ⟨true⟩) = .ok (some ⟨true⟩, true) :=
  ⟨rfl, fun _ => rfl, rfl⟩

/-- C7: `download_file` fails with the not-found kind when the remote path
does not exist, fails with the transfer-error kind (a distinct kind) on
any other protocol error, and otherwise returns the result of the local
existence probe: a protocol-level success that leaves no local artifact
yields false, not true. -/
theorem claim_C7 (rfp lf nf cause m : String) (ex : Bool) :
    download_file (.remoteMissing cause) rfp lf nf
      = .error (.fileNotFoundError ("Remote file not found: " ++ rfp) cause)
    ∧ download_file (.sftpError m) rfp lf nf
      = .error (.valueError ("SFTP error during file download: " ++ m) m)
    ∧ download_file (.ok ex) rfp lf nf = .ok ex
    ∧ download_file (.ok false) rfp lf nf = .ok false
    ∧ (∀ (m2 c2 m3 c3 : String),
      PyExc.fileNotFoundError m2 c2 ≠ PyExc.valueError m3 c3) :=
  ⟨rfl, rfl, rfl, rfl, fun _ _ _ _ h => PyExc.noConfusion h⟩

/-- C7 witness at concrete inputs: a protocol-level success with no local
artifact returns false, and a missing remote file raises the not-found
kind. -/
theorem claim_C7_witness :
    download_file (.ok false) "/r/f" "/l" "n" = .ok false
    ∧ download_file (.remoteMissing "no such file") "/r/f" "/l" "n"
      = .error (.fileNotFoundError ("Remote file not found: " ++ "/r/f") "no such file") :=
  ⟨(claim_C7 "/r/f" "/l" "n" "no such file" "m" false).2.2.2.1,
   (claim_C7 "/r/f" "/l" "n" "no such file" "m" false).1⟩

/-- C8: upload and existence-check failures are reported as the return
value false and never raised: `upload_file` returns false when the local
file is missing and on any transfer-protocol error, and
`check_remote_file` (a total boolean function, so it cannot raise)
returns false on any protocol error and passes a false transport answer
through, covering a remote path whose parent directory does not exist. -/
theorem claim_C8 (env : UploadEnv) (l rf nf m p : String) (b : Bool) :
    (env.put l (uploadRemotePath rf nf) = .localMissing → upload_file env l rf nf = false)
    ∧ (env.put l (uploadRemotePath rf nf) = .sftpError m → upload_file env l rf nf = false)
    ∧ check_remote_file (.sftpError m) p = false
    ∧ check_remote_file (.ok b) p = b
    ∧ check_remote_file (.ok false) p = false := by
  refine ⟨?_, ?_, rfl, rfl, rfl⟩
  · intro h
    unfold upload_file
    rw [h]
  · intro h
    unfold upload_file
    rw [h]

/-- C8 witness at concrete inputs: a missing local file and an SFTP error
both make the upload report false, and a protocol error makes the
existence check report false. -/
theorem claim_C8_witness :
    upload_file ⟨fun _ _ => .localMissing⟩ "lf" "rf" "nf" = false
    ∧ upload_file ⟨fun _ _ => .sftpError "err"⟩ "lf" "rf" "nf" = false
    ∧ check_remote_file (.sftpError "err") "/x" = false :=
  ⟨(claim_C8 ⟨fun _ _ => .localMissing⟩ "lf" "rf" "nf" "err" "/x" true).1 rfl,
   (claim_C8 ⟨fun _ _ => .sftpError "err"⟩ "lf" "rf" "nf" "err" "/x" true).2.1 rfl,
   (claim_C8 ⟨fun _ _ => .localMissing⟩ "lf" "rf" "nf" "err" "/x" true).2.2.1⟩

/-- C9: `find_file` returns none when the listing fails and none when no
entry matches; when it returns an entry, that entry starts with the given
string and every entry before it in listing order does not, so the result
is the first match in listing order; on the listing
[abc.txt, abd.txt, xyz.txt] it returns abc.txt for ab and none for qq. -/
theorem claim_C9 (d p m : String) :
    find_file (.sftpError m) d p = none
    ∧ (∀ fs : List String, (∀ f ∈ fs, pyStartswith f p = false) →
      find_file (.ok fs) d p = none)
    ∧ (∀ (fs : List String) (f : String), find_file (.ok fs) d p = some f →
      pyStartswith f p = true
      ∧ ∃ l1 l2, fs = l1 ++ f :: l2 ∧ ∀ g ∈ l1, pyStartswith g p = false)
    ∧ find_file (.ok ["abc.txt", "abd.txt", "xyz.txt"]) d "ab" = some "abc.txt"
    ∧ find_file (.ok ["abc.txt", "abd.txt", "xyz.txt"]) d "qq" = none := by
  refine ⟨rfl, ?_, ?_, rfl, rfl⟩
  · intro fs hall
    unfold find_file
    exact List.find?_eq_none.mpr fun x hx => by simp [hall x hx]
  · intro fs f h
    exact find?_decomp _ fs f h

/-- C9 witness at the concrete listing: the returned entry abc.txt starts
with ab and is the first listing-order match. -/
theorem claim_C9_witness :
    pyStartswith "abc.txt" "ab" = true
    ∧ ∃ l1 l2, ["abc.txt", "abd.txt", "xyz.txt"] = l1 ++ "abc.txt" :: l2
      ∧ ∀ g ∈ l1, pyStartswith g "ab" = false :=
  (claim_C9 "dir" "ab" "m").2.2.1 ["abc.txt", "abd.txt", "xyz.txt"] "abc.txt" (by decide)

/-- C10: the upload destination is exactly the remote folder, one slash
separator, and the new filename, with no path normalization: the upload
succeeds exactly when the transport accepts the file at that very path,
and a remote folder already ending in a slash yields a destination
containing a double slash. -/
theorem claim_C10 (env : UploadEnv) (l rf nf s : String) :
    uploadRemotePath rf nf = rf ++ "/" ++ nf
    ∧ (upload_file env l rf nf = true ↔ env.put l (uploadRemotePath rf nf) = .ok)
    ∧ (rf = s ++ "/" → uploadRemotePath rf nf = s ++ "//" ++ nf) := by
  refine ⟨rfl, ?_, ?_⟩
  · unfold upload_file
    cases h : env.put l (uploadRemotePath rf nf) <;> simp [h]
  · intro hrf
    subst hrf
    unfold uploadRemotePath
    simp only [String.append_assoc]
    rw [← String.append_assoc "/" "/" nf]
    rfl

/-- C10 witness at a concrete folder ending in a slash: the destination
contains a double slash and the upload targets exactly that path. -/
theorem claim_C10_witness :
    uploadRemotePath "folder/" "file.txt" = "folder" ++ "//" ++ "file.txt"
    ∧ upload_file ⟨fun _ _ => .ok⟩ "lf" "folder/" "file.txt" = true :=
  ⟨(claim_C10 ⟨fun _ _ => .ok⟩ "lf" "folder/" "file.txt" "folder").2.2 (by decide),
   (claim_C10 ⟨fun _ _ => .ok⟩ "lf" "folder/" "file.txt" "folder").2.1.mpr rfl⟩

end RemoteSSH
